import Mathlib

/-!
Verification of the `gpx_activities` plugin (Garmin Connect variant) and the
credential-stripping request handlers of `blueprints/plugin.py`.

Shallow embedding conventions:
* Python `float` coordinates, distances and epoch timestamps are modelled as `ℚ`.
* Python exceptions are modelled with `Option`/`Except` (`none`/`.error` = raised).
* Calls into external collaborators (the Garmin API client, `xml.etree`,
  `datetime.fromisoformat`, `random`, the headless renderer, Flask) are
  parameters of an environment record; everything downstream of those calls is
  translated from the source.
-/

/-- One round of the inner varint loop of `decode_polyline`
(`gpx_activities.py` lines 88 to 96 and 100 to 108): repeatedly take the low
five bits of `ord(char) - 63`, OR them into the accumulator at the current
shift, and stop at the first character whose value `b` is below `0x20`.
Running off the end of the string is Python's `IndexError`, modelled as `none`.
Python's `b & 0x1F` on the signed value equals `(b.emod 32).toNat`. -/
def parseVarint : List Char → Nat → Nat → Option (Nat × List Char)
  | [], _, _ => none
  | c :: rest, shift, acc =>
    let b : Int := (c.toNat : Int) - 63
    let acc2 := acc ||| ((b.emod 32).toNat <<< shift)
    if b < 32 then some (acc2, rest) else parseVarint rest (shift + 5) acc2

/-- The zig-zag step of `decode_polyline` (lines 97 and 109):
`~(result >> 1) if (result & 1) else (result >> 1)`, with `~x = -x - 1`. -/
def zigzag (r : Nat) : Int :=
  if r % 2 = 1 then -((r / 2 : Nat) : Int) - 1 else ((r / 2 : Nat) : Int)

/-- The outer `while index < len(encoded)` loop of `decode_polyline`
(lines 87 to 112): per iteration one varint for the latitude delta and one for
the longitude delta, each accumulated into the running coordinate, then the
point is appended.  `fuel` bounds the number of iterations; every iteration
consumes at least one character, so `fuel = length` at the top level never runs
out (`decodeLoopF_congr`, `decodeLoop_cons`).  `none` models the `IndexError` raised on
truncated input, which discards all points. -/
def decodeLoopF : Nat → List Char → Int → Int → Option (List (Int × Int))
  | _, [], _, _ => some []
  | 0, _ :: _, _, _ => none
  | fuel + 1, c :: rest, lat, lon =>
    match parseVarint (c :: rest) 0 0 with
    | none => none
    | some (r1, cs1) =>
      match parseVarint cs1 0 0 with
      | none => none
      | some (r2, cs2) =>
        let lat2 := lat + zigzag r1
        let lon2 := lon + zigzag r2
        match decodeLoopF fuel cs2 lat2 lon2 with
        | none => none
        | some tl => some ((lat2, lon2) :: tl)

/-- Model of `decode_polyline` (lines 77 to 114): empty input returns `[]`; otherwise
the accumulated integer coordinates are scaled by `1e5`.  `none` models the
uncaught `IndexError` on input truncated inside a chunk. -/
def decode_polyline (s : String) : Option (List (ℚ × ℚ)) :=
  if s.data = [] then some [] else
    (decodeLoopF s.data.length s.data 0 0).map
      (List.map (fun p => (((p.1 : ℚ) / 100000), ((p.2 : ℚ) / 100000))))

/-- A `<trkpt>` element as used by `extract_points_from_gpx_bytes` (lines 221
to 229): each attribute is absent (`none`), or present; a present attribute
carries `none` when Python's `float()` on the attribute string raises and
`some q` when it converts to the number `q`. -/
structure Trkpt where
  lat : Option (Option ℚ)
  lon : Option (Option ℚ)

/-- The outcome of handing a byte buffer to `xml.etree.ElementTree.fromstring`
from the point of view of `extract_points_from_gpx_bytes`: empty bytes, bytes
that are not well-formed XML (`ET.ParseError`), or a parsed document, reduced
to its two `findall` result lists: the namespaced `.//gpx:trkpt` hits and the
non-namespaced `.//trkpt` fallback hits. -/
inductive GpxData
  | empty
  | malformed
  | parsed (nsTrkpts : List Trkpt) (plainTrkpts : List Trkpt)

/-- Model of `extract_points_from_gpx_bytes` (lines 206 to 230): empty input returns
`[]`; a `ParseError` is caught and `[]` is returned; otherwise the namespaced
track points are used, falling back to non-namespaced ones when there are
none, and every point missing an attribute or failing `float()` is skipped. -/
def extract_points_from_gpx_bytes (gpx_data : GpxData) : List (ℚ × ℚ) :=
  match gpx_data with
  | .empty => []
  | .malformed => []
  | .parsed nsTrkpts plainTrkpts =>
    let trkpts := if nsTrkpts.isEmpty then plainTrkpts else nsTrkpts
    trkpts.filterMap fun p =>
      match p.lat, p.lon with
      | some (some la), some (some lo) => some (la, lo)
      | _, _ => none

/-- Model of `is_in_brussels` (lines 138 to 141) over the bounding-box constants of
lines 18 to 21; `none` models a `None` coordinate. -/
def is_in_brussels (lat lon : Option ℚ) : Bool :=
  match lat, lon with
  | some la, some lo =>
    decide ((50796 / 1000 : ℚ) ≤ la ∧ la ≤ 50914 / 1000 ∧
      (4244 / 1000 : ℚ) ≤ lo ∧ lo ≤ 4486 / 1000)
  | _, _ => false

/-- A raw Garmin activity payload, reduced to the fields
`_fetch_filtered_activities` and its helpers read.  A coordinate or numeric
field is `none` when absent (or JSON `null`), `some none` when present but
rejected by Python's `float()`, and `some (some q)` when it converts to `q`. -/
structure RawActivity where
  typeKey : Option String
  startLatitude : Option (Option ℚ)
  startLongitude : Option (Option ℚ)
  beginLatitude : Option (Option ℚ)
  beginLongitude : Option (Option ℚ)
  startLatitudeDegrees : Option (Option ℚ)
  startLongitudeDegrees : Option (Option ℚ)
  summaryIsDict : Bool
  summaryStartLatitude : Option (Option ℚ)
  summaryStartLongitude : Option (Option ℚ)
  distance : Option (Option ℚ)
  activityId : Option Int
  activityName : Option String
  startTimeLocal : Option String
  startTimeGMT : Option String
  duration : Option (Option ℚ)

/-- The candidate scan of `extract_start_coordinates` (lines 127 to 135): the
first pair with both values present and convertible wins; a candidate with a
missing value (`continue`) or a `float()` failure (caught and skipped) is
passed over. -/
def firstCoordinatePair :
    List (Option (Option ℚ) × Option (Option ℚ)) → Option ℚ × Option ℚ
  | [] => (none, none)
  | (some (some la), some (some lo)) :: _ => (some la, some lo)
  | _ :: rest => firstCoordinatePair rest

/-- Model of `extract_start_coordinates` (lines 117 to 135): the three top-level field
pairs in priority order, then the `summaryDTO` pair, which reads as absent
when `summaryDTO` is not a dict. -/
def extract_start_coordinates (a : RawActivity) : Option ℚ × Option ℚ :=
  firstCoordinatePair
    [(a.startLatitude, a.startLongitude),
     (a.beginLatitude, a.beginLongitude),
     (a.startLatitudeDegrees, a.startLongitudeDegrees),
     (if a.summaryIsDict then a.summaryStartLatitude else none,
      if a.summaryIsDict then a.summaryStartLongitude else none)]

/-- The external collaborators used while building one `Activity`:
`api.download_activity` followed by GPX parsing input (`none` = the download
raised), the composite `extract_polyline_points(api.get_activity_details id)`
fallback (`none` = the details call raised), `datetime.fromisoformat(...)
.timestamp()` (`none` = `ValueError`), and local-time `strftime` rendering. -/
structure GarminEnv where
  gpxDownload : Int → Option GpxData
  detailsPoints : Int → Option (List (ℚ × ℚ))
  isoParse : String → Option ℚ
  formatLocal : ℚ → String

/-- Model of `parse_iso_datetime` (lines 63 to 74): falsy input gives `None`; the text
is stripped, a trailing `"Z"` is rewritten to `"+00:00"`, and the result is
handed to the standard-library ISO parser, whose `ValueError` gives `None`.
The resulting datetime is represented by its epoch timestamp in `ℚ`. -/
def parse_iso_datetime (env : GarminEnv) (value : Option String) : Option ℚ :=
  match value with
  | none => none
  | some v =>
    if v = "" then none
    else
      let text := v.trim
      let text := if text.endsWith "Z" then text.dropRight 1 ++ "+00:00" else text
      env.isoParse text

/-- An `Activity` (dataclass, lines 25 to 31), with the datetime stored as an
optional epoch timestamp and points as `(lat, lon)` pairs. -/
structure Activity where
  title : String
  start_dt : Option ℚ
  distance_km : ℚ
  duration_seconds : Option Int
  points : List (ℚ × ℚ)

/-- The two-stage geometry retrieval of `_fetch_filtered_activities` (lines
380 to 397): try the GPX export (an exception leaves `points = []`), and when
that produced no points fall back to the details endpoint (an exception again
leaves `[]`). -/
def fetchActivityPoints (env : GarminEnv) (id : Int) : List (ℚ × ℚ) :=
  let pts :=
    match env.gpxDownload id with
    | none => []
    | some gpx => extract_points_from_gpx_bytes gpx
  if pts.isEmpty then (env.detailsPoints id).getD [] else pts

/-- Python's `int(float(v))`: truncation toward zero on `ℚ`. -/
def pyTruncInt (q : ℚ) : Int := if q < 0 then ⌈q⌉ else ⌊q⌋

/-- The title fallback of line 399: `activity.get("activityName") or
f"Road Ride {activity_id}"` (an absent id prints as `None`). -/
def activityTitle (a : RawActivity) : String :=
  let fallback := "Road Ride " ++ (match a.activityId with
    | some n => toString n
    | none => "None")
  match a.activityName with
  | some s => if s = "" then fallback else s
  | none => fallback

/-- One pass of the `for activity in raw_activities` loop body of
`_fetch_filtered_activities` (lines 362 to 418); `none` is a `continue`.
In order: the `road_biking` type gate, the Brussels geofence on the extracted
start coordinates, the distance conversion (`activity.get("distance") or 0`,
with a failed `float()` skipping the activity) and minimum-distance gate, then
geometry retrieval for a truthy id, title, start time and duration. -/
def buildActivity (env : GarminEnv) (min_distance_km : ℚ) (a : RawActivity) :
    Option Activity :=
  if a.typeKey ≠ some "road_biking" then none
  else
    let coords := extract_start_coordinates a
    if ¬ is_in_brussels coords.1 coords.2 then none
    else
      let distanceVal : Option ℚ :=
        match a.distance with
        | none => some 0
        | some none => none
        | some (some q) => some q
      match distanceVal with
      | none => none
      | some dm =>
        let distance_km := dm / 1000
        if distance_km < min_distance_km then none
        else
          let points :=
            match a.activityId with
            | some id => if id ≠ 0 then fetchActivityPoints env id else []
            | none => []
          let startRaw : Option String :=
            match a.startTimeLocal with
            | some s => if s = "" then a.startTimeGMT else some s
            | none => a.startTimeGMT
          let start_dt := parse_iso_datetime env startRaw
          let duration_seconds : Option Int :=
            match a.duration with
            | none => none
            | some none => none
            | some (some q) => some (pyTruncInt q)
          some ⟨activityTitle a, start_dt, distance_km, duration_seconds, points⟩

/-- The sort key of line 420: `a.start_dt.timestamp() if a.start_dt else
float("-inf")`, as a `WithBot ℚ` value. -/
def sortKey (a : Activity) : WithBot ℚ :=
  match a.start_dt with
  | none => ⊥
  | some q => (q : WithBot ℚ)

/-- The ordering realised by `filtered.sort(key=..., reverse=True)`:
descending by `sortKey`. -/
def activityDescRel (a b : Activity) : Prop := sortKey b ≤ sortKey a

instance : DecidableRel activityDescRel := fun a b =>
  inferInstanceAs (Decidable (sortKey b ≤ sortKey a))

instance : IsTotal Activity activityDescRel :=
  ⟨fun a b => le_total (sortKey b) (sortKey a)⟩

instance : IsTrans Activity activityDescRel :=
  ⟨fun _ _ _ h1 h2 => le_trans h2 h1⟩

/-- Model of `_fetch_filtered_activities` after a successful API fetch (lines 360 to
421): the filtering loop over the raw payload, then the descending stable sort
by start timestamp with absent timestamps sorting as negative infinity. -/
def fetch_filtered_activities (env : GarminEnv) (raw_activities : List RawActivity)
    (min_distance_km : ℚ) : List Activity :=
  List.insertionSort activityDescRel
    (raw_activities.filterMap (buildActivity env min_distance_km))

/-- Python's `f"{n:02d}"` for the minute/second fields (always in `[0, 59]`
here). -/
def pad2 (n : Int) : String :=
  let s := toString n
  if s.length < 2 then "0" ++ s else s

/-- Model of `_format_duration` (lines 443 to 461): `None` gives the placeholder;
below one minute, seconds only; otherwise `divmod` into hours, minutes and
seconds, printing seconds only when non-zero and zero-padding minutes and
seconds to two digits. -/
def format_duration : Option Int → String
  | none => "Unknown duration"
  | some n =>
    if n < 60 then toString n ++ "s"
    else
      let hours := n.ediv 3600
      let remainder := n.emod 3600
      let minutes := remainder.ediv 60
      let seconds := remainder.emod 60
      if hours > 0 then
        if seconds > 0 then
          toString hours ++ "h " ++ pad2 minutes ++ "m " ++ pad2 seconds ++ "s"
        else toString hours ++ "h " ++ pad2 minutes ++ "m"
      else
        if seconds > 0 then toString minutes ++ "m " ++ pad2 seconds ++ "s"
        else toString minutes ++ "m"

/-- The value of the `minDistanceKm` setting as `_parse_min_distance` sees it:
absent (`None`), the empty string, a value Python's `float()` converts to `q`
(a number or a numeric string), or a non-empty non-numeric value on which
`float()` raises. -/
inductive MinDistVal
  | missing
  | emptyStr
  | num (q : ℚ)
  | junk

/-- Model of `_parse_min_distance` (lines 423 to 433): default `20.0` for `None` or
`""`, a `RuntimeError` for unconvertible input, a `RuntimeError` whose message
says the value cannot be negative for negative input, and the parsed value
otherwise. -/
def parse_min_distance : MinDistVal → Except String ℚ
  | .missing => .ok 20
  | .emptyStr => .ok 20
  | .junk => .error "Minimum distance must be a valid number in kilometers."
  | .num q =>
    if q < 0 then .error "Minimum distance cannot be negative."
    else .ok q

/-- Model of `_format_activity_start` (lines 435 to 441): placeholder for `None`,
otherwise the local-time `strftime` rendering of the timestamp. -/
def format_activity_start (env : GarminEnv) : Option ℚ → String
  | none => "Unknown start"
  | some q => env.formatLocal q

/-- Python's `f"{x:.1f}"` on a decimal value: fixed-point with one digit,
ties rounded to even (the rounding of the underlying binary float on
non-representable values is outside the model, and no claim depends on it). -/
def format1f (q : ℚ) : String :=
  let t := q * 10
  let f : Int := ⌊t⌋
  let r : ℚ := t - f
  let n : Int :=
    if r > 1 / 2 then f + 1
    else if r < 1 / 2 then f
    else if f % 2 = 0 then f else f + 1
  let sign := if n < 0 then "-" else ""
  sign ++ toString (n.natAbs / 10) ++ "." ++ toString (n.natAbs % 10)

/-- The f-string of line 274: `f"{activity.distance_km:.1f} km"`. -/
def format_distance (q : ℚ) : String := format1f q ++ " km"


/-- One entry of `map_traces` (lines 263, 269): a trace color and the segments
list `[activity.points]`. -/
structure MapTrace where
  color : String
  segments : List (List (ℚ × ℚ))

/-- One entry of `rendered_activities` (lines 270 to 278). -/
structure RenderedActivity where
  title : String
  start : String
  distance : String
  duration : String
  color : String

/-- The `for activity in activities` rendering loop of `generate_image`
(lines 266 to 278): each iteration draws a fresh color (`random_trace_color`
consumes the process RNG, modelled as the stream `colors` indexed by the
iteration number `i`), appends a map trace only when the activity has more
than one point, and always appends a rendered-activity entry. -/
def renderLoop (env : GarminEnv) (colors : Nat → String) (i : Nat) :
    List Activity → List MapTrace × List RenderedActivity
  | [] => ([], [])
  | a :: rest =>
    let color := colors i
    ((if a.points.length > 1 then [⟨color, [a.points]⟩] else []) ++
        (renderLoop env colors (i + 1) rest).1,
     ⟨a.title, format_activity_start env a.start_dt, format_distance a.distance_km,
       format_duration a.duration_seconds, color⟩ :: (renderLoop env colors (i + 1) rest).2)

/-- The bounding box of lines 280 to 289: min/max over every point of every
activity, with the Brussels box as fallback when there are no points.
Returned as (south, west, north, east). -/
def boundsOf (acts : List Activity) : ℚ × ℚ × ℚ × ℚ :=
  let points := (acts.map Activity.points).flatten
  match points with
  | [] => (50796 / 1000, 4244 / 1000, 50914 / 1000, 4486 / 1000)
  | p :: rest =>
    (rest.foldl (fun m q => min m q.1) p.1,
     rest.foldl (fun m q => min m q.2) p.2,
     rest.foldl (fun m q => max m q.1) p.1,
     rest.foldl (fun m q => max m q.2) p.2)

/-- The plugin-instance settings dict as `generate_image` reads it: the two
legacy GPX entries (`gpxFiles[]` is a file list, absent reads as `[]`;
`gpxFile` a string, falsy when absent or empty), the two credential key
pointers, and the minimum-distance setting. -/
structure Settings where
  gpxFilesList : List String
  gpxFile : Option String
  garminEmailKey : Option String
  garminPasswordKey : Option String
  minDistanceKm : MinDistVal

/-- Python truthiness of an optional string. -/
def strTruthy : Option String → Bool
  | none => false
  | some s => s ≠ ""

/-- The device and remote-service collaborators of `generate_image`:
`load_env_key`, resolution and orientation from the device configuration, the
outcome of the Garmin login plus `get_activities_by_date` (with the exception
mapping of lines 332 to 358 collapsed into the resulting `RuntimeError`
message on failure), the per-activity geometry environment, the color stream,
and whether `take_screenshot_html` returned a truthy image. -/
structure DeviceEnv where
  loadEnvKey : String → Option String
  resolution : Nat × Nat
  orientation : String
  apiRaw : Except String (List RawActivity)
  garmin : GarminEnv
  colors : Nat → String
  screenshotOk : Bool

/-- The template parameters that determine the rendered image (lines 291 to
307), reduced to the data-bearing fields. -/
structure TemplateParams where
  width : Nat
  height : Nat
  map_traces : List MapTrace
  activities : List RenderedActivity
  bounds : ℚ × ℚ × ℚ × ℚ

/-- Model of `GpxActivities.generate_image` (lines 239 to 316): the legacy-GPX guard,
the credential-key guard, the `.env` credential guard, minimum-distance
parsing, the fetch plus filter, the no-results guard, dimensions with the
vertical swap, the rendering loop, the bounding box, and the screenshot call
whose falsy result is a render failure.  `.error` carries the `RuntimeError`
message. -/
def generate_image (settings : Settings) (dev : DeviceEnv) :
    Except String TemplateParams :=
  if settings.gpxFilesList ≠ [] ∨ strTruthy settings.gpxFile then
    .error "This plugin now uses Garmin Connect directly. Re-save the plugin instance with Garmin credentials."
  else if ¬ (strTruthy settings.garminEmailKey ∧ strTruthy settings.garminPasswordKey) then
    .error "Garmin credentials are required. Save email and password in plugin settings."
  else
    let email := (settings.garminEmailKey.bind dev.loadEnvKey)
    let password := (settings.garminPasswordKey.bind dev.loadEnvKey)
    if ¬ (strTruthy email ∧ strTruthy password) then
      .error "Garmin credentials are missing from .env. Re-save credentials in plugin settings."
    else
      match parse_min_distance settings.minDistanceKm with
      | .error e => .error e
      | .ok min_distance_km =>
        match dev.apiRaw with
        | .error e => .error e
        | .ok raw =>
          let activities := fetch_filtered_activities dev.garmin raw min_distance_km
          if activities.isEmpty then
            .error "No matching road_biking activities found in Brussels for the last 6 months with current distance filter."
          else
            let dimensions :=
              if dev.orientation = "vertical" then
                (dev.resolution.2, dev.resolution.1)
              else dev.resolution
            let (traces, rendered) := renderLoop dev.garmin dev.colors 0 activities
            if ¬ dev.screenshotOk then
              .error "Failed to render Garmin map view. Check Chromium availability and network access."
            else
              .ok ⟨dimensions.1, dimensions.2, traces, rendered, boundsOf activities⟩

/-- A Python dict of strings, as a lookup function. -/
def PyDict : Type := String → Option String

/-- Python `dict.pop(key, None)` (and `pop(key)` after a presence check): the dict
without that key. -/
def dictPop (d : PyDict) (k : String) : PyDict :=
  fun k2 => if k2 = k then none else d k2

/-- Python `d.update(e)`: entries of `e` win. -/
def dictUpdate (d e : PyDict) : PyDict :=
  fun k => match e k with
    | some v => some v
    | none => d k

/-- The plugin-settings dict built by `update_plugin_instance`
(`blueprints/plugin.py` lines 198 to 235): `plugin_id` is popped from the
parsed form (a missing key raises `KeyError`, returning an error response with
nothing persisted, modelled as `none`), `refresh_settings` is popped, the
uploaded-files dict is merged in, and for plugin id `gpx_activities` the
plaintext `garminEmail` and `garminPassword` entries are removed before the
dict is stored on the plugin instance. -/
def update_plugin_instance_settings (form files : PyDict) : Option PyDict :=
  match form "plugin_id" with
  | none => none
  | some plugin_id =>
    let d := dictPop (dictPop form "plugin_id") "refresh_settings"
    let d := dictUpdate d files
    let d :=
      if plugin_id = "gpx_activities" then
        dictPop (dictPop d "garminEmail") "garminPassword"
      else d
    some d

/-- The plugin-settings dict built by `update_now` (lines 274 to 284): the
form and files dicts are merged, `plugin_id` is popped from the merge (a
missing key raises, modelled as `none`), and for `gpx_activities` the
plaintext credential entries are removed before the dict is handed to the
refresh task or directly to `generate_image`. -/
def update_now_settings (form files : PyDict) : Option PyDict :=
  let merged := dictUpdate form files
  match merged "plugin_id" with
  | none => none
  | some plugin_id =>
    let d := dictPop merged "plugin_id"
    let d :=
      if plugin_id = "gpx_activities" then
        dictPop (dictPop d "garminEmail") "garminPassword"
      else d
    some d

theorem parseVarint_length :
    ∀ (cs : List Char) (shift acc r : Nat) (rest : List Char),
      parseVarint cs shift acc = some (r, rest) → rest.length < cs.length := by
  intro cs
  induction cs with
  | nil => intro shift acc r rest h; simp [parseVarint] at h
  | cons c tail ih =>
    intro shift acc r rest h
    simp only [parseVarint] at h
    split at h
    · cases h
      simp
    · exact Nat.lt_succ_of_lt (ih _ _ _ _ h)

theorem decodeLoopF_nil (f : Nat) (lat lon : Int) :
    decodeLoopF f [] lat lon = some [] := by
  cases f <;> rfl

theorem decodeLoopF_congr (n : Nat) :
    ∀ (cs : List Char), cs.length ≤ n → ∀ (f g : Nat) (lat lon : Int),
      cs.length ≤ f → cs.length ≤ g →
      decodeLoopF f cs lat lon = decodeLoopF g cs lat lon := by
  induction n with
  | zero =>
    intro cs hcs f g lat lon _ _
    have hnil : cs = [] := List.eq_nil_of_length_eq_zero (Nat.le_zero.mp hcs)
    subst hnil
    rw [decodeLoopF_nil, decodeLoopF_nil]
  | succ n ih =>
    intro cs hcs f g lat lon hf hg
    match cs with
    | [] => rw [decodeLoopF_nil, decodeLoopF_nil]
    | c :: rest =>
      obtain ⟨f2, rfl⟩ : ∃ f2, f = f2 + 1 := ⟨f - 1, by simp at hf; omega⟩
      obtain ⟨g2, rfl⟩ : ∃ g2, g = g2 + 1 := ⟨g - 1, by simp at hg; omega⟩
      simp only [decodeLoopF]
      cases h1 : parseVarint (c :: rest) 0 0 with
      | none => rfl
      | some p1 =>
        obtain ⟨r1, cs1⟩ := p1
        dsimp only
        cases h2 : parseVarint cs1 0 0 with
        | none => rfl
        | some p2 =>
          obtain ⟨r2, cs2⟩ := p2
          dsimp only
          have l1 := parseVarint_length _ _ _ _ _ h1
          have l2 := parseVarint_length _ _ _ _ _ h2
          have hrec : decodeLoopF f2 cs2 (lat + zigzag r1) (lon + zigzag r2) =
              decodeLoopF g2 cs2 (lat + zigzag r1) (lon + zigzag r2) := by
            apply ih cs2 (by simp at hcs l1 l2 ⊢; omega) f2 g2
            · simp at hf l1 l2 ⊢; omega
            · simp at hg l1 l2 ⊢; omega
          rw [hrec]

/-- Unfolding equation for the outer loop at the honest fuel value: one
iteration parses a latitude chunk and a longitude chunk, appends the
accumulated point and continues on the remaining characters. -/
theorem decodeLoop_cons (c : Char) (rest : List Char) (lat lon : Int) :
    decodeLoopF (c :: rest).length (c :: rest) lat lon =
      match parseVarint (c :: rest) 0 0 with
      | none => none
      | some (r1, cs1) =>
        match parseVarint cs1 0 0 with
        | none => none
        | some (r2, cs2) =>
          match decodeLoopF cs2.length cs2 (lat + zigzag r1) (lon + zigzag r2) with
          | none => none
          | some tl => some ((lat + zigzag r1, lon + zigzag r2) :: tl) := by
  simp only [List.length_cons, decodeLoopF]
  cases h1 : parseVarint (c :: rest) 0 0 with
  | none => rfl
  | some p1 =>
    obtain ⟨r1, cs1⟩ := p1
    dsimp only
    cases h2 : parseVarint cs1 0 0 with
    | none => rfl
    | some p2 =>
      obtain ⟨r2, cs2⟩ := p2
      dsimp only
      have l1 := parseVarint_length _ _ _ _ _ h1
      have l2 := parseVarint_length _ _ _ _ _ h2
      have hrec : decodeLoopF rest.length cs2 (lat + zigzag r1) (lon + zigzag r2) =
          decodeLoopF cs2.length cs2 (lat + zigzag r1) (lon + zigzag r2) := by
        apply decodeLoopF_congr cs2.length cs2 (le_refl _)
        · simp at l1 l2 ⊢; omega
        · exact le_refl _
      rw [hrec]

/-- Chunk decomposition of a character stream under the varint scheme of
`decode_polyline`: characters with `ord(c) - 63 >= 0x20` (that is,
`ord(c) >= 95`) carry the continuation bit and a character below 95 ends the
chunk.  `countChunkGo cs inChunk` is the number of complete chunks in `cs`, or
`none` when the stream ends while a chunk is still open. -/
def countChunkGo : List Char → Bool → Option Nat
  | [], inChunk => if inChunk then none else some 0
  | c :: rest, _ =>
    if c.toNat < 95 then (countChunkGo rest false).map (· + 1)
    else countChunkGo rest true

/-- The chunk status of an encoded polyline string: `none` when the string
ends inside a chunk (a trailing continuation bit), `some n` when it is a
concatenation of exactly `n` complete chunks. -/
def chunkStatus (s : String) : Option Nat := countChunkGo s.data false

theorem countChunkGo_bool (cs : List Char) (h : cs ≠ []) (b1 b2 : Bool) :
    countChunkGo cs b1 = countChunkGo cs b2 := by
  cases cs with
  | nil => exact absurd rfl h
  | cons c rest => rfl

theorem parseVarint_terminal (c : Char) (rest : List Char) (shift acc : Nat)
    (h : c.toNat < 95) :
    parseVarint (c :: rest) shift acc =
      some (acc ||| ((((c.toNat : Int) - 63).emod 32).toNat <<< shift), rest) := by
  simp only [parseVarint]
  rw [if_pos (by omega)]

theorem parseVarint_continue (c : Char) (rest : List Char) (shift acc : Nat)
    (h : ¬ c.toNat < 95) :
    parseVarint (c :: rest) shift acc =
      parseVarint rest (shift + 5)
        (acc ||| ((((c.toNat : Int) - 63).emod 32).toNat <<< shift)) := by
  simp only [parseVarint]
  rw [if_neg (by omega)]

/-- A successful varint parse removes exactly one complete chunk. -/
theorem countChunkGo_of_parseVarint :
    ∀ (cs : List Char) (shift acc r : Nat) (rest : List Char),
      parseVarint cs shift acc = some (r, rest) →
      countChunkGo cs false = (countChunkGo rest false).map (· + 1) := by
  intro cs
  induction cs with
  | nil => intro shift acc r rest h; simp [parseVarint] at h
  | cons c tail ih =>
    intro shift acc r rest h
    by_cases hc : c.toNat < 95
    · rw [parseVarint_terminal c tail shift acc hc] at h
      cases h
      simp only [countChunkGo, if_pos hc]
    · rw [parseVarint_continue c tail shift acc hc] at h
      have htail : tail ≠ [] := by
        intro hnil
        subst hnil
        simp [parseVarint] at h
      simp only [countChunkGo, if_neg hc]
      rw [countChunkGo_bool tail htail true false]
      exact ih _ _ _ _ h

/-- A failed varint parse on a non-empty stream means the stream ends inside a
chunk. -/
theorem countChunkGo_of_parseVarint_none :
    ∀ (cs : List Char) (shift acc : Nat),
      parseVarint cs shift acc = none → cs ≠ [] →
      countChunkGo cs false = none := by
  intro cs
  induction cs with
  | nil => intro _ _ _ h; exact absurd rfl h
  | cons c tail ih =>
    intro shift acc h _
    by_cases hc : c.toNat < 95
    · rw [parseVarint_terminal c tail shift acc hc] at h
      exact absurd h (by simp)
    · rw [parseVarint_continue c tail shift acc hc] at h
      simp only [countChunkGo, if_neg hc]
      rcases tail with _ | ⟨c2, tail2⟩
      · rfl
      · rw [countChunkGo_bool (c2 :: tail2) (by simp) true false]
        exact ih _ _ h (by simp)

/-- Soundness of the decoding loop with respect to chunk decomposition: a
successful decode consumes an even number of complete chunks, two per point. -/
theorem decodeLoop_chunks (n : Nat) :
    ∀ (cs : List Char), cs.length ≤ n → ∀ (lat lon : Int) (pts : List (Int × Int)),
      decodeLoopF cs.length cs lat lon = some pts →
      countChunkGo cs false = some (2 * pts.length) := by
  induction n with
  | zero =>
    intro cs hcs lat lon pts h
    have hnil : cs = [] := List.eq_nil_of_length_eq_zero (Nat.le_zero.mp hcs)
    subst hnil
    rw [decodeLoopF_nil] at h
    cases h
    rfl
  | succ n ih =>
    intro cs hcs lat lon pts h
    match cs with
    | [] =>
      rw [decodeLoopF_nil] at h
      cases h
      rfl
    | c :: rest =>
      rw [decodeLoop_cons] at h
      cases h1 : parseVarint (c :: rest) 0 0 with
      | none => rw [h1] at h; simp at h
      | some p1 =>
        obtain ⟨r1, cs1⟩ := p1
        rw [h1] at h
        dsimp only at h
        cases h2 : parseVarint cs1 0 0 with
        | none => rw [h2] at h; simp at h
        | some p2 =>
          obtain ⟨r2, cs2⟩ := p2
          rw [h2] at h
          dsimp only at h
          cases h3 : decodeLoopF cs2.length cs2 (lat + zigzag r1) (lon + zigzag r2) with
          | none => rw [h3] at h; simp at h
          | some tl =>
            rw [h3] at h
            dsimp only at h
            cases h
            have l1 := parseVarint_length _ _ _ _ _ h1
            have l2 := parseVarint_length _ _ _ _ _ h2
            have htl := ih cs2 (by simp at hcs l1 l2 ⊢; omega) _ _ tl h3
            rw [countChunkGo_of_parseVarint _ _ _ _ _ h1,
              countChunkGo_of_parseVarint _ _ _ _ _ h2, htl]
            simp only [Option.map_some']
            congr 1

theorem filterMap_filter_of_none {α β : Type} (f : α → Option β) (p : α → Bool)
    (h : ∀ x, p x = false → f x = none) :
    ∀ l : List α, (l.filter p).filterMap f = l.filterMap f := by
  intro l
  induction l with
  | nil => rfl
  | cons x xs ih =>
    cases hp : p x with
    | true => simp only [List.filter_cons, hp, if_pos trivial, List.filterMap_cons, ih]
    | false =>
      simp only [List.filter_cons, hp, Bool.false_eq_true, if_false,
        List.filterMap_cons, h x hp, ih]

theorem buildActivity_none_of_geofence (env : GarminEnv) (md : ℚ) (r : RawActivity)
    (h : is_in_brussels (extract_start_coordinates r).1
      (extract_start_coordinates r).2 = false) :
    buildActivity env md r = none := by
  unfold buildActivity
  split
  · rfl
  · rw [if_pos (by simp [h])]

/-- C4: for every list of raw remote activities (and every environment and
minimum distance), the list returned by `_fetch_filtered_activities` is sorted
by start timestamp in descending order, and every activity without a start
timestamp (sort key negative infinity) appears after all activities that have
one. -/
theorem claim4_sorted_descending_none_last :
    ∀ (env : GarminEnv) (raws : List RawActivity) (md : ℚ),
      (fetch_filtered_activities env raws md).Sorted activityDescRel ∧
      (fetch_filtered_activities env raws md).Pairwise
        (fun a b => a.start_dt = none → b.start_dt = none) := by
  intro env raws md
  have hs : (fetch_filtered_activities env raws md).Sorted activityDescRel :=
    List.sorted_insertionSort activityDescRel _
  refine ⟨hs, hs.imp ?_⟩
  intro a b hab ha
  have hka : sortKey a = ⊥ := by simp [sortKey, ha]
  have hkb : sortKey b = ⊥ := le_bot_iff.mp (hka ▸ hab)
  cases hsb : b.start_dt with
  | none => rfl
  | some q =>
    simp [sortKey, hsb] at hkb

/-- C6: decoding the standard example polyline yields exactly the three points
(38.5, -120.2), (40.7, -120.95) and (43.252, -126.453). -/
theorem claim6_decode_known_polyline :
    decode_polyline "_p~iF~ps|U_ulLnnqC_mqNvxq`@" =
      some [((385 : ℚ) / 10, (-1202 : ℚ) / 10),
            ((407 : ℚ) / 10, (-12095 : ℚ) / 100),
            ((43252 : ℚ) / 1000, (-126453 : ℚ) / 1000)] := by
  have h : decodeLoopF "_p~iF~ps|U_ulLnnqC_mqNvxq`@".data.length
      "_p~iF~ps|U_ulLnnqC_mqNvxq`@".data 0 0 =
      some [(3850000, -12020000), (4070000, -12095000), (4325200, -12645300)] := by
    decide
  unfold decode_polyline
  rw [if_neg (by decide), h]
  simp only [Option.map_some', List.map_cons, List.map_nil]
  norm_num

/-- C7: whenever the encoded string is truncated inside a varint chunk (its
chunk decomposition fails) or holds an odd number of complete chunks (a final
longitude chunk is missing), `decode_polyline` raises (returns `none`) instead
of returning a list holding a partially decoded final point. -/
theorem claim7_truncated_input_raises :
    ∀ s : String,
      (chunkStatus s = none ∨ ∃ k, chunkStatus s = some (2 * k + 1)) →
      decode_polyline s = none := by
  intro s h
  unfold decode_polyline
  split
  case isTrue hnil =>
    exfalso
    have h0 : chunkStatus s = some 0 := by
      unfold chunkStatus
      rw [hnil]
      rfl
    rcases h with h | ⟨k, h⟩
    · rw [h0] at h
      cases h
    · rw [h0] at h
      injection h with h2
      omega
  case isFalse hne =>
    cases hd : decodeLoopF s.data.length s.data 0 0 with
    | none => rfl
    | some pts =>
      exfalso
      have heven := decodeLoop_chunks s.data.length s.data (le_refl _) 0 0 pts hd
      rcases h with h | ⟨k, h⟩
      · rw [chunkStatus, heven] at h
        cases h
      · rw [chunkStatus, heven] at h
        injection h with h2
        omega

theorem claim7_witness :
    (chunkStatus "_p~iF" = none ∨ ∃ k, chunkStatus "_p~iF" = some (2 * k + 1)) ∧
    decode_polyline "_p~iF" = none :=
  ⟨Or.inr ⟨0, by decide⟩,
   claim7_truncated_input_raises "_p~iF" (Or.inr ⟨0, by decide⟩)⟩

/-- C2: `_format_duration` behavior at the spec's probe points.  It returns
"59s" at 59 and "1m" at 60 and the placeholder on `None` as claimed, but at
3661 the code produces "1h 01m 01s" (the non-zero seconds component is
appended), not the "1h 01m" asserted by the spec and by the repository's own
test `test_format_duration`. -/
theorem claim2_format_duration_behavior :
    format_duration (some 59) = "59s" ∧
    format_duration (some 60) = "1m" ∧
    format_duration none = "Unknown duration" ∧
    format_duration (some 3661) = "1h 01m 01s" ∧
    format_duration (some 3661) ≠ "1h 01m" := by
  refine ⟨?_, ?_, rfl, ?_, ?_⟩ <;> decide

/-- C5: `_parse_min_distance` returns the default 20.0 on `None` and on the
empty string, the parsed value on a non-negative numeric input, a validation
error on non-numeric input, and on every negative input an error whose message
contains "cannot be negative". -/
theorem claim5_parse_min_distance :
    parse_min_distance .missing = .ok 20 ∧
    parse_min_distance .emptyStr = .ok 20 ∧
    (∀ q : ℚ, 0 ≤ q → parse_min_distance (.num q) = .ok q) ∧
    parse_min_distance .junk =
      .error "Minimum distance must be a valid number in kilometers." ∧
    (∀ q : ℚ, q < 0 → ∃ pre post,
      parse_min_distance (.num q) = .error (pre ++ "cannot be negative" ++ post)) := by
  refine ⟨rfl, rfl, ?_, rfl, ?_⟩
  · intro q hq
    have e : parse_min_distance (.num q) =
        if q < 0 then Except.error "Minimum distance cannot be negative."
        else Except.ok q := rfl
    rw [e, if_neg (not_lt.mpr hq)]
  · intro q hq
    refine ⟨"Minimum distance ", ".", ?_⟩
    have e : parse_min_distance (.num q) =
        if q < 0 then Except.error "Minimum distance cannot be negative."
        else Except.ok q := rfl
    rw [e, if_pos hq]
    rfl

theorem claim5_witness :
    ((0 : ℚ) ≤ 3 ∧ parse_min_distance (.num 3) = .ok 3) ∧
    ((-1 : ℚ) < 0 ∧ ∃ pre post,
      parse_min_distance (.num (-1)) = .error (pre ++ "cannot be negative" ++ post)) :=
  ⟨⟨by decide, claim5_parse_min_distance.2.2.1 3 (by decide)⟩,
   ⟨by decide, claim5_parse_min_distance.2.2.2.2 (-1) (by decide)⟩⟩

/-- C8: `is_in_brussels` is true exactly when both coordinates are present and
lie in the closed intervals [50.796, 50.914] and [4.244, 4.486], and raw
activities whose extracted start coordinates fail this test are excluded from
the result of `_fetch_filtered_activities` (filtering them away first changes
nothing). -/
theorem claim8_geofence :
    (∀ lat lon : Option ℚ,
      is_in_brussels lat lon = true ↔
        ∃ la lo, lat = some la ∧ lon = some lo ∧
          ((50796 / 1000 : ℚ) ≤ la ∧ la ≤ 50914 / 1000) ∧
          ((4244 / 1000 : ℚ) ≤ lo ∧ lo ≤ 4486 / 1000)) ∧
    (∀ (env : GarminEnv) (raws : List RawActivity) (md : ℚ),
      fetch_filtered_activities env raws md =
        fetch_filtered_activities env
          (raws.filter fun r =>
            is_in_brussels (extract_start_coordinates r).1
              (extract_start_coordinates r).2) md) := by
  constructor
  · intro lat lon
    cases lat with
    | none => simp [is_in_brussels]
    | some la =>
      cases lon with
      | none => simp [is_in_brussels]
      | some lo =>
        simp only [is_in_brussels, decide_eq_true_eq, Option.some.injEq]
        constructor
        · rintro ⟨h1, h2, h3, h4⟩
          exact ⟨la, lo, rfl, rfl, ⟨h1, h2⟩, ⟨h3, h4⟩⟩
        · rintro ⟨la2, lo2, rfl, rfl, ⟨h1, h2⟩, ⟨h3, h4⟩⟩
          exact ⟨h1, h2, h3, h4⟩
  · intro env raws md
    unfold fetch_filtered_activities
    congr 1
    exact (filterMap_filter_of_none _ _
      (fun r hr => buildActivity_none_of_geofence env md r hr) raws).symm

/-- C3 counterexample: on bytes that are not well-formed XML,
`extract_points_from_gpx_bytes` does not signal any error: the `ParseError` is
caught and the function returns the empty list, the same successful value it
returns for an empty buffer. -/
theorem claim3_counterexample :
    extract_points_from_gpx_bytes GpxData.malformed = ([] : List (ℚ × ℚ)) ∧
    extract_points_from_gpx_bytes GpxData.malformed =
      extract_points_from_gpx_bytes GpxData.empty :=
  ⟨rfl, rfl⟩

/-- C3 (amended): on malformed XML `extract_points_from_gpx_bytes` silently
returns the empty list, and in the geometry-fetch path of
`_fetch_filtered_activities` that empty result makes the caller fall back to
the details endpoint. -/
theorem claim3_amended_silent_empty :
    ∀ (env : GarminEnv) (id : Int),
      extract_points_from_gpx_bytes GpxData.malformed = [] ∧
      (env.gpxDownload id = some GpxData.malformed →
        fetchActivityPoints env id = (env.detailsPoints id).getD []) := by
  intro env id
  refine ⟨rfl, fun h => ?_⟩
  simp [fetchActivityPoints, h, extract_points_from_gpx_bytes]

/-- A concrete environment in which every GPX download yields malformed
bytes and the details endpoint yields a one-point trace. -/
def malformedDownloadEnv : GarminEnv where
  gpxDownload := fun _ => some GpxData.malformed
  detailsPoints := fun _ => some [(1, 2)]
  isoParse := fun _ => none
  formatLocal := fun _ => ""

theorem claim3_amended_witness :
    malformedDownloadEnv.gpxDownload 7 = some GpxData.malformed ∧
    fetchActivityPoints malformedDownloadEnv 7 =
      (malformedDownloadEnv.detailsPoints 7).getD [] :=
  ⟨rfl, (claim3_amended_silent_empty malformedDownloadEnv 7).2 rfl⟩

/-- An environment in which no geometry can be retrieved and no timestamp
parses: every external call raises or yields nothing. -/
def noApiEnv : GarminEnv where
  gpxDownload := fun _ => none
  detailsPoints := fun _ => none
  isoParse := fun _ => none
  formatLocal := fun _ => ""

/-- A raw `road_biking` activity starting inside the Brussels box, 25 km
long, with no activity id, so that no geometry is ever fetched and the built
`Activity` has an empty points list. -/
def zeroPointRaw : RawActivity where
  typeKey := some "road_biking"
  startLatitude := some (some (5085 / 100))
  startLongitude := some (some (436 / 100))
  beginLatitude := none
  beginLongitude := none
  startLatitudeDegrees := none
  startLongitudeDegrees := none
  summaryIsDict := false
  summaryStartLatitude := none
  summaryStartLongitude := none
  distance := some (some 25000)
  activityId := none
  activityName := some "Morning Ride"
  startTimeLocal := none
  startTimeGMT := none
  duration := none

theorem buildActivity_zeroPointRaw :
    buildActivity noApiEnv 20 zeroPointRaw =
      some ⟨"Morning Ride", none, 25000 / 1000, none, []⟩ := by
  unfold buildActivity
  rw [if_neg (by norm_num [zeroPointRaw])]
  rw [if_neg (by
    norm_num [zeroPointRaw, extract_start_coordinates, firstCoordinatePair,
      is_in_brussels])]
  dsimp only [zeroPointRaw]
  rw [if_neg (by norm_num)]
  rfl

/-- C1 counterexample: a raw activity for which no geometry is available
survives `_fetch_filtered_activities` with an empty points list (it is not
filtered out before sorting), and the rendering loop of `generate_image`
still emits a `rendered_activities` entry for it. -/
theorem claim1_counterexample :
    (fetch_filtered_activities noApiEnv [zeroPointRaw] 20).map Activity.points =
      [[]] ∧
    ((renderLoop noApiEnv (fun _ => "#336699") 0
      (fetch_filtered_activities noApiEnv [zeroPointRaw] 20)).2).length = 1 := by
  have h : fetch_filtered_activities noApiEnv [zeroPointRaw] 20 =
      [⟨"Morning Ride", none, 25000 / 1000, none, []⟩] := by
    unfold fetch_filtered_activities
    rw [List.filterMap_cons, buildActivity_zeroPointRaw]
    rfl
  rw [h]
  exact ⟨rfl, rfl⟩

/-- C1 (amended): `_fetch_filtered_activities` does not drop zero-point
activities; every activity it returns is surfaced as a `rendered_activities`
entry (in order), and only activities with more than one point contribute
entries to `map_traces`. -/
theorem claim1_amended_rendering :
    ∀ (env : GarminEnv) (colors : Nat → String) (i : Nat) (acts : List Activity),
      ((renderLoop env colors i acts).2).map RenderedActivity.title =
        acts.map Activity.title ∧
      ((renderLoop env colors i acts).1).map MapTrace.segments =
        (acts.filter fun a => decide (a.points.length > 1)).map
          (fun a => [a.points]) := by
  intro env colors i acts
  induction acts generalizing i with
  | nil => exact ⟨rfl, rfl⟩
  | cons a rest ih =>
    obtain ⟨ih1, ih2⟩ := ih (i + 1)
    by_cases hp : a.points.length > 1
    · simp [renderLoop, hp, List.filter_cons, ih1, ih2]
    · simp [renderLoop, hp, List.filter_cons, ih1, ih2]

/-- C9: whenever the settings contain a non-empty legacy `gpxFile` or
`gpxFiles[]` entry, `generate_image` fails with the legacy-GPX error, for
every device environment whatsoever — so neither the credential store nor the
remote API nor the renderer is ever consulted. -/
theorem claim9_legacy_gpx_rejected :
    ∀ (settings : Settings) (dev : DeviceEnv),
      (settings.gpxFilesList ≠ [] ∨ strTruthy settings.gpxFile = true) →
      generate_image settings dev =
        .error "This plugin now uses Garmin Connect directly. Re-save the plugin instance with Garmin credentials." := by
  intro settings dev h
  unfold generate_image
  rw [if_pos h]

/-- Settings carrying a legacy uploaded GPX file. -/
def legacySettings : Settings where
  gpxFilesList := []
  gpxFile := some "ride.gpx"
  garminEmailKey := some "GARMIN_EMAIL_ab12cd34ef"
  garminPasswordKey := some "GARMIN_PASSWORD_ab12cd34ef"
  minDistanceKm := .missing

/-- A fully populated device environment: credentials load fine, the API
answers, the screenshot succeeds. -/
def liveDev : DeviceEnv where
  loadEnvKey := fun _ => some "secret"
  resolution := (800, 480)
  orientation := "horizontal"
  apiRaw := .ok [zeroPointRaw]
  garmin := noApiEnv
  colors := fun _ => "#336699"
  screenshotOk := true

theorem claim9_witness :
    (legacySettings.gpxFilesList ≠ [] ∨ strTruthy legacySettings.gpxFile = true) ∧
    generate_image legacySettings liveDev =
      .error "This plugin now uses Garmin Connect directly. Re-save the plugin instance with Garmin credentials." :=
  ⟨Or.inr (by decide),
   claim9_legacy_gpx_rejected legacySettings liveDev (Or.inr (by decide))⟩

/-- C10: for both `update_plugin_instance` and `update_now`, when the posted
plugin id is `gpx_activities` the settings dict that leaves the handler (to be
persisted on the plugin instance or passed to image generation) contains
neither a `garminEmail` nor a `garminPassword` entry. -/
theorem claim10_credentials_stripped :
    ∀ (form files : PyDict) (d : PyDict),
      (form "plugin_id" = some "gpx_activities" →
        update_plugin_instance_settings form files = some d →
        d "garminEmail" = none ∧ d "garminPassword" = none) ∧
      ((dictUpdate form files) "plugin_id" = some "gpx_activities" →
        update_now_settings form files = some d →
        d "garminEmail" = none ∧ d "garminPassword" = none) := by
  intro form files d
  constructor
  · intro hpid hupd
    unfold update_plugin_instance_settings at hupd
    rw [hpid] at hupd
    dsimp only at hupd
    rw [if_pos rfl] at hupd
    cases hupd
    constructor
    · show (dictPop (dictPop _ "garminEmail") "garminPassword") "garminEmail" = none
      simp [dictPop]
    · show (dictPop (dictPop _ "garminEmail") "garminPassword") "garminPassword" = none
      simp [dictPop]
  · intro hpid hupd
    unfold update_now_settings at hupd
    dsimp only at hupd
    rw [hpid] at hupd
    dsimp only at hupd
    rw [if_pos rfl] at hupd
    cases hupd
    constructor
    · show (dictPop (dictPop _ "garminEmail") "garminPassword") "garminEmail" = none
      simp [dictPop]
    · show (dictPop (dictPop _ "garminEmail") "garminPassword") "garminPassword" = none
      simp [dictPop]

/-- A posted form for the `gpx_activities` plugin that includes plaintext
credentials. -/
def postedForm : PyDict := fun k =>
  if k = "plugin_id" then some "gpx_activities"
  else if k = "garminEmail" then some "rider at example dot org"
  else if k = "garminPassword" then some "hunter2"
  else if k = "minDistanceKm" then some "25"
  else none

/-- Uploaded files accompanying the form. -/
def postedFiles : PyDict := fun k =>
  if k = "garminPassword" then some "hunter2-again" else none

/-- The dict `update_plugin_instance` would persist for `postedForm`. -/
def persistedDict : PyDict :=
  dictPop (dictPop (dictUpdate (dictPop (dictPop postedForm "plugin_id")
    "refresh_settings") postedFiles) "garminEmail") "garminPassword"

/-- The dict `update_now` would pass on for `postedForm`. -/
def passedOnDict : PyDict :=
  dictPop (dictPop (dictPop (dictUpdate postedForm postedFiles) "plugin_id")
    "garminEmail") "garminPassword"

theorem claim10_witness :
    postedForm "plugin_id" = some "gpx_activities" ∧
    (persistedDict "garminEmail" = none ∧ persistedDict "garminPassword" = none) ∧
    (dictUpdate postedForm postedFiles) "plugin_id" = some "gpx_activities" ∧
    (passedOnDict "garminEmail" = none ∧ passedOnDict "garminPassword" = none) :=
  ⟨rfl,
   (claim10_credentials_stripped postedForm postedFiles persistedDict).1 rfl rfl,
   rfl,
   (claim10_credentials_stripped postedForm postedFiles passedOnDict).2 rfl rfl⟩
